import Mathlib

/-!
Verification of the mini-metars station monitoring and display engine.

The development shallowly embeds the frontend core of the repository:
the per-station monitor (Metar.tsx: lookup, METAR/ATIS polling, panel
toggles, altimeter formatting) and the application orchestrator
(App.tsx: station list operations, profile loading, the
apply-and-resize transaction, keyboard handlers).  Machine numbers are
modelled exactly: observation timestamps as integers (epoch
milliseconds), altimeter values and random draws as rationals.
Asynchronous effects are made explicit: fallible external calls become
Option-valued inputs, the resize side effect becomes a counter, and
for the one claim about asynchronous sequencing an explicit event
trace is used.
-/

namespace MiniMetars

/-- Pressure unit preference, from the MainUiStore and Profile types
(App.tsx / tauri.ts): the string union "inHg" | "hPa". -/
inductive PUnits where
  | inHg
  | hPa
deriving DecidableEq

/-- Dual altimeter representation, from the altimeter store in Metar.tsx
(fields inHg and hpa, both initialised to 0.0). -/
structure Altim where
  inHg : ℚ
  hpa : ℚ
deriving DecidableEq

/-! ### Decimal formatting (model of Number.prototype.toFixed)

JavaScript renders x.toFixed(d) as the decimal numeral of x rounded to
d fractional digits (round to nearest, ties away from zero; our
arguments are non-negative, where that is round half up).  The model
computes the scaled integer floor(|q| * 10^d + 1/2) by integer
arithmetic on the numerator and denominator and then prints its digits,
inserting the decimal point d places from the right. -/

/-- Decimal digits of a natural number, most significant first; fuelled
structural recursion (the fuel is an upper bound on the digit count). -/
def natDigitsAux : ℕ → ℕ → List Char
  | 0, _ => []
  | fuel + 1, n => if n = 0 then [] else natDigitsAux fuel (n / 10) ++ [Nat.digitChar (n % 10)]

/-- Decimal numeral of a natural number. -/
def natNumeral (n : ℕ) : String :=
  if n = 0 then "0" else String.mk (natDigitsAux (n + 1) n)

/-- Exactly d decimal digits of n (mod 10^d), most significant first,
zero-padded on the left. -/
def fracDigits : ℕ → ℕ → List Char
  | 0, _ => []
  | d + 1, n => fracDigits d (n / 10) ++ [Nat.digitChar (n % 10)]

/-- The value |q| scaled by 10^d and rounded to the nearest integer
(half up): floor(|q| * 10^d + 1/2), computed as
(2 * |num| * 10^d + den) / (2 * den) in natural numbers. -/
def toFixedScaled (d : ℕ) (q : ℚ) : ℕ :=
  (2 * q.num.natAbs * 10 ^ d + q.den) / (2 * q.den)

/-- The sign prefix of the rendered numeral: "-" only when q is
negative and the rounded magnitude is non-zero. -/
def toFixedSign (d : ℕ) (q : ℚ) : String :=
  if q.num < 0 ∧ toFixedScaled d q ≠ 0 then "-" else ""

/-- Model of x.toFixed(d) for a rational x: round to d fractional
digits and print, inserting the decimal point d places from the right
(omitted when d = 0). -/
def toFixed (d : ℕ) (q : ℚ) : String :=
  if d = 0 then toFixedSign d q ++ natNumeral (toFixedScaled d q)
  else
    toFixedSign d q ++ natNumeral (toFixedScaled d q / 10 ^ d) ++ "."
      ++ String.mk (fracDigits d (toFixedScaled d q % 10 ^ d))

/-- The altimeterString memo of Metar.tsx: unit-dependent rendering of
the altimeter store; a zero value renders as the empty string, else
inHg with two decimals and hPa with zero decimals. -/
def altimeterString (units : PUnits) (altimeter : Altim) : String :=
  match units with
  | PUnits.inHg => if altimeter.inHg = 0 then "" else toFixed 2 altimeter.inHg
  | PUnits.hPa => if altimeter.hpa = 0 then "" else toFixed 0 altimeter.hpa

/-! ### Station monitor state (Metar.tsx signals) -/

/-- Result shape of the fetch_metar backend command (tauri.ts
FetchMetarResponse), restricted to the fields the monitor consumes:
the observation timestamp (new Date(res.metar.obsTime), modelled as
epoch milliseconds), the dual altimeter, the wind string and the raw
report text. -/
structure FetchMetarResponse where
  obsTime : ℤ
  altimeter : Altim
  windString : String
  rawOb : String
deriving DecidableEq

/-- Result shape of the get_atis backend command (tauri.ts
FetchAtisResponse). -/
structure FetchAtisResponse where
  letter : String
  texts : List String
deriving DecidableEq

/-- Result shape of the lookup_station backend command (tauri.ts
Station), restricted to the fields the monitor consumes. -/
structure StationInfo where
  icaoId : String
  faaId : String
deriving DecidableEq

/-- The signals and stores of one Metar component instance. -/
structure MetarState where
  icaoId : String
  currentTimestamp : Option ℤ
  validId : Bool
  displayId : String
  wind : String
  rawMetar : String
  altimeter : Altim
  showFullMetar : Bool
  atisLetter : String
  atisTexts : List String
  showAtisTexts : Bool
deriving DecidableEq

/-- Initial signal values of a Metar component (Metar.tsx createSignal
and createStore initialisers). -/
def initialMetarState : MetarState where
  icaoId := ""
  currentTimestamp := none
  validId := false
  displayId := ""
  wind := ""
  rawMetar := ""
  altimeter := ⟨0, 0⟩
  showFullMetar := false
  atisLetter := "-"
  atisTexts := []
  showAtisTexts := false

/-- fetchAndUpdateStation of Metar.tsx.  The lookup outcome is an
explicit Option: some on backend success, none when lookup_station
rejects (the catch branch, which only sets displayId to the requested
id and logs a warning). -/
def fetchAndUpdateStation (requestedId : String) (lookup : Option StationInfo)
    (s : MetarState) : MetarState :=
  match lookup with
  | some station =>
      { s with
        icaoId := station.icaoId
        displayId := if station.faaId ≠ "-" then station.faaId else station.icaoId
        validId := true }
  | none => { s with displayId := requestedId }

/-- updateMetar of Metar.tsx, paired with the number of backend fetch
calls it issues (0 when the early validId guard returns, else 1).  The
fetch outcome is an explicit Option: none models the catch branch of a
failed updateMetarCmd call, which leaves every signal untouched. -/
def updateMetarRun (s : MetarState) (fetch : Option FetchMetarResponse) :
    MetarState × ℕ :=
  if s.validId = false then (s, 0)
  else
    match fetch with
    | none => (s, 1)
    | some res =>
        let newTimestamp := res.obsTime
        match s.currentTimestamp with
        | none =>
            ({ s with
                currentTimestamp := some newTimestamp
                altimeter := res.altimeter
                wind := res.windString
                rawMetar := res.rawOb }, 1)
        | some t =>
            if newTimestamp > t then
              ({ s with
                  currentTimestamp := some newTimestamp
                  altimeter := res.altimeter
                  wind := res.windString
                  rawMetar := res.rawOb }, 1)
            else (s, 1)

/-- State effect of updateMetar. -/
def updateMetar (s : MetarState) (fetch : Option FetchMetarResponse) : MetarState :=
  (updateMetarRun s fetch).1

/-- updateAtis of Metar.tsx, paired with its backend fetch count; the
letter and texts are overwritten unconditionally on success. -/
def updateAtisRun (s : MetarState) (fetch : Option FetchAtisResponse) :
    MetarState × ℕ :=
  if s.validId = false then (s, 0)
  else
    match fetch with
    | none => (s, 1)
    | some res => ({ s with atisLetter := res.letter, atisTexts := res.texts }, 1)

/-- State effect of updateAtis. -/
def updateAtis (s : MetarState) (fetch : Option FetchAtisResponse) : MetarState :=
  (updateAtisRun s fetch).1

/-- The batched mutation of toggleShowMetar in Metar.tsx (the
routing through the resize callback is modelled at the orchestrator
layer; the mutation is the per-station state change). -/
def toggleShowMetar (s : MetarState) : MetarState :=
  if s.showFullMetar then { s with showFullMetar := false }
  else { s with showFullMetar := true, showAtisTexts := false }

/-- The batched mutation of toggleShowAtisTexts in Metar.tsx. -/
def toggleShowAtisTexts (s : MetarState) : MetarState :=
  if s.atisTexts.length = 0 then { s with showAtisTexts := false }
  else if s.showAtisTexts then { s with showAtisTexts := false }
  else { s with showAtisTexts := true, showFullMetar := false }

/-! ### Jittered polling intervals -/

/-- getRandomInt of Metar.tsx:
Math.floor(Math.random() * (maxFloored - minCeiled) + minCeiled), with
Math.random() passed in explicitly as a rational r in [0, 1). -/
def getRandomInt (lo hi : ℚ) (r : ℚ) : ℤ :=
  let minCeiled : ℤ := ⌈lo⌉
  let maxFloored : ℤ := ⌊hi⌋
  ⌊r * ((maxFloored : ℚ) - (minCeiled : ℚ)) + (minCeiled : ℚ)⌋

/-- The METAR polling interval armed by onMount, in milliseconds:
setInterval(updateMetar, 1000 * getRandomInt(120, 150)).  The draw
happens once, at mount; every later cycle reuses it, which is recorded
by the interval sequence below ignoring all but the first draw. -/
def metarIntervalMs (r : ℚ) : ℤ := 1000 * getRandomInt 120 150 r

/-- The ATIS polling interval armed by onMount, in milliseconds:
setInterval(updateAtis, 1000 * getRandomInt(20, 30)). -/
def atisIntervalMs (r : ℚ) : ℤ := 1000 * getRandomInt 20 30 r

/-- The METAR interval (in seconds) in force before cycle n, as the
code behaves: setInterval fixes the period from the single mount-time
draw, so every cycle uses the draw of index 0 regardless of the fresh
randomness (draws n) that re-randomization would have consumed. -/
def codeMetarIntervalSeq (draws : ℕ → ℚ) : ℕ → ℤ :=
  fun _ => getRandomInt 120 150 (draws 0)

/-- Modelled from the spec: the METAR interval sequence that the
claimed re-randomization would produce, drawing fresh randomness
(draws n) before each cycle n.  No such per-cycle draw exists in the
source; this definition follows the spec wording for comparison. -/
def specMetarIntervalSeq (draws : ℕ → ℚ) : ℕ → ℤ :=
  fun n => getRandomInt 120 150 (draws n)

/-- The ATIS interval (in seconds) in force before cycle n, as the
code behaves. -/
def codeAtisIntervalSeq (draws : ℕ → ℚ) : ℕ → ℤ :=
  fun _ => getRandomInt 20 30 (draws 0)

/-! ### Mount sequence of one monitor -/

/-- Outcome of the onMount handler of Metar.tsx: the resulting state,
the two timer handles (none when never armed), and how many METAR and
ATIS backend fetches were issued during mounting. -/
structure MountResult where
  state : MetarState
  metarTimerHandle : Option ℤ
  letterTimerHandle : Option ℤ
  metarFetchCount : ℕ
  atisFetchCount : ℕ
deriving DecidableEq

/-- onMount of Metar.tsx: look the station up; only when validId
became true, run one immediate METAR update and arm its interval
timer, then one immediate ATIS update and arm its interval timer.
r1 and r2 are the two Math.random() draws. -/
def onMountMetar (requestedId : String) (lookup : Option StationInfo)
    (metarFetch : Option FetchMetarResponse) (atisFetch : Option FetchAtisResponse)
    (r1 r2 : ℚ) : MountResult :=
  let s1 := fetchAndUpdateStation requestedId lookup initialMetarState
  if s1.validId then
    let m := updateMetarRun s1 metarFetch
    let a := updateAtisRun m.1 atisFetch
    { state := a.1
      metarTimerHandle := some (metarIntervalMs r1)
      letterTimerHandle := some (atisIntervalMs r2)
      metarFetchCount := m.2
      atisFetchCount := a.2 }
  else
    { state := s1
      metarTimerHandle := none
      letterTimerHandle := none
      metarFetchCount := 0
      atisFetchCount := 0 }

/-! ### Application orchestrator state (App.tsx) -/

/-- The MainUiStore of App.tsx. -/
structure MainUiStore where
  showScroll : Bool
  showInput : Bool
  showTitlebar : Bool
  units : PUnits
deriving DecidableEq

/-- Window placement state of a saved window geometry (tauri.ts Window
interface). -/
inductive WindowState where
  | normal
  | maximized
  | fullScreen
deriving DecidableEq

/-- Saved window geometry carried by a profile (tauri.ts Window
interface); its contents are applied by the backend window manager,
never read by the frontend core. -/
structure WindowGeometry where
  state : WindowState
  posX : ℤ
  posY : ℤ
  width : ℕ
  height : ℕ
  scaleFactor : ℚ
deriving DecidableEq

/-- The Profile record of tauri.ts.  The optional window field arrives
from the backend as JSON, where an absent geometry is the null the
code tests with p.window === null; it is modelled as none. -/
structure Profile where
  name : String
  stations : List String
  showInput : Bool
  showTitlebar : Bool
  window : Option WindowGeometry
  units : PUnits
  hideAirportIfMissingAtis : Bool
deriving DecidableEq

/-- Orchestrator state: the input signal, the station id store, the
MainUiStore, and a counter of resetWindowHeight side effects (each
window.setSize request the core issues). -/
structure AppState where
  inputId : String
  ids : List String
  mainUi : MainUiStore
  resizeCalls : ℕ
deriving DecidableEq

/-- resetWindowHeight of App.tsx: measures the container and issues one
window.setSize request; in the state model it records one resize side
effect. -/
def resetWindowHeight (s : AppState) : AppState :=
  { s with resizeCalls := s.resizeCalls + 1 }

/-- applyFnAndResize of App.tsx, state effect for the synchronous
mutations the orchestrator passes to it: suppress scrolling, run the
mutation, issue one measured resize, restore scrolling. -/
def applyFnAndResize (s : AppState) (fn : AppState → AppState) : AppState :=
  let s1 := { s with mainUi := { s.mainUi with showScroll := false } }
  let s2 := fn s1
  let s3 := resetWindowHeight s2
  { s3 with mainUi := { s3.mainUi with showScroll := true } }

/-- removeIndex of App.tsx:
[...array.slice(0, index), ...array.slice(index + 1)]. -/
def removeIndex {α : Type} (array : List α) (index : ℕ) : List α :=
  array.take index ++ array.drop (index + 1)

/-- The addStation submit handler of App.tsx (after preventDefault):
inside the apply-and-resize transaction, append inputId to the station
store and clear it, but only when its length is between 3 and 4. -/
def addStation (s : AppState) : AppState :=
  applyFnAndResize s fun st =>
    if 3 ≤ st.inputId.length ∧ st.inputId.length ≤ 4 then
      { st with ids := st.ids ++ [st.inputId], inputId := "" }
    else st

/-- removeStation of App.tsx. -/
def removeStation (s : AppState) (index : ℕ) : AppState :=
  applyFnAndResize s fun st => { st with ids := removeIndex st.ids index }

/-- The batched profile application shared by both branches of
loadProfile: swap the station list and the three UI flags. -/
def loadProfileApply (p : Profile) (st : AppState) : AppState :=
  { st with
    ids := p.stations
    mainUi :=
      { st.mainUi with
        showInput := p.showInput
        showTitlebar := p.showTitlebar
        units := p.units } }

/-- loadProfile of App.tsx: when the profile carries no saved window
geometry the batched swap runs inside applyFnAndResize; when it does,
the swap runs bare and no resize is issued by this component. -/
def loadProfile (s : AppState) (p : Profile) : AppState :=
  match p.window with
  | none => applyFnAndResize s (loadProfileApply p)
  | some _ => loadProfileApply p s

/-- The CtrlOrCmd+D shortcut handler of App.tsx: inside the
apply-and-resize transaction, toggle showInput, gated on a non-empty
station list. -/
def toggleInputShortcut (s : AppState) : AppState :=
  applyFnAndResize s fun st =>
    if st.ids.length > 0 then
      { st with mainUi := { st.mainUi with showInput := !st.mainUi.showInput } }
    else st

/-! ### Event-trace model of the apply-and-resize transaction

applyFnAndResize types its argument as a synchronous thunk and invokes
it as fn() without awaiting the returned value.  When the caller
passes an async function (updateAtis in Metar.tsx hands
props.resizeAfterFn an async closure that awaits the get_atis call),
the closure runs up to its first await and returns a pending promise;
its remaining writes run only when that awaited call settles, while
applyFnAndResize proceeds immediately to the measurement.  The trace
model makes this scheduling explicit. -/

/-- Observable events of one apply-and-resize transaction. -/
inductive Ev where
  | scrollSet (enabled : Bool)
  | mutWrite (tag : ℕ)
  | measureHeight
  | resizeWindow
deriving DecidableEq

/-- A mutation passed to applyFnAndResize: either a synchronous thunk
performing a list of writes, or an async closure that performs some
writes, awaits one external call, and performs the remaining writes
after it settles. -/
inductive Mutation where
  | sync (writes : List ℕ)
  | withAwait (preWrites : List ℕ) (postWrites : List ℕ)
deriving DecidableEq

/-- Event trace of applyFnAndResize fn on the JavaScript event loop.
A sync mutation completes within the fn() call.  An async mutation
returns at its first await; settleAfterResize records whether its
awaited external call settles after the measurement and resize of
applyFnAndResize have completed (the ordinary case for a network fetch
racing two quick window calls) or before them.  In neither case does
applyFnAndResize wait for the pending writes: fn() is not awaited. -/
def applyFnAndResizeTrace (fn : Mutation) (settleAfterResize : Bool) : List Ev :=
  match fn with
  | Mutation.sync ws =>
      [Ev.scrollSet false] ++ ws.map Ev.mutWrite
        ++ [Ev.measureHeight, Ev.resizeWindow, Ev.scrollSet true]
  | Mutation.withAwait pre post =>
      if settleAfterResize then
        [Ev.scrollSet false] ++ pre.map Ev.mutWrite
          ++ [Ev.measureHeight, Ev.resizeWindow, Ev.scrollSet true]
          ++ post.map Ev.mutWrite
      else
        [Ev.scrollSet false] ++ pre.map Ev.mutWrite ++ post.map Ev.mutWrite
          ++ [Ev.measureHeight, Ev.resizeWindow, Ev.scrollSet true]

/-- Whether an event is a state write of the mutation. -/
def Ev.isMutWrite : Ev → Bool
  | Ev.mutWrite _ => true
  | _ => false

/-- Whether every mutation write in a trace precedes the measurement:
no write event occurs at or after the first measureHeight event. -/
def mutationBeforeMeasure (t : List Ev) : Bool :=
  !((t.dropWhile (fun e => !(e == Ev.measureHeight))).any Ev.isMutWrite)

/-! ### Auxiliary predicates and concrete demonstration values -/

/-- Order on displayed observation timestamps: an absent timestamp
(no observation accepted yet) precedes every timestamp. -/
def tsLE : Option ℤ → Option ℤ → Prop
  | none, _ => True
  | some _, none => False
  | some a, some b => a ≤ b

/-- The per-station panel invariant: full report and advisory texts are
never both visible. -/
def panelsMutuallyExclusive (s : MetarState) : Prop :=
  ¬(s.showFullMetar = true ∧ s.showAtisTexts = true)

/-- Modelled from the spec: the claim about addStation speaks of the
trimmed length of the input, but no trimming exists anywhere in the
source; this definition follows the claim wording (JavaScript
String.prototype.trim, restricted to the space character, which
suffices for the inputs considered) and is used only to state that
claim. -/
def specTrim (s : String) : String :=
  String.mk (((s.data.dropWhile (fun c => c == ' ')).reverse.dropWhile
    (fun c => c == ' ')).reverse)

/-- The mutation updateAtis hands to the resize callback: an async
closure that awaits the get_atis backend call before any display
write, then writes the ATIS letter (tag 0) and the ATIS texts
(tag 1). -/
def atisMutation : Mutation := Mutation.withAwait [] [0, 1]

/-- A valid monitor state with an accepted observation at timestamp 5. -/
def demoMetarState : MetarState where
  icaoId := "KJFK"
  currentTimestamp := some 5
  validId := true
  displayId := "JFK"
  wind := "18009KT"
  rawMetar := "KJFK ..."
  altimeter := ⟨0, 0⟩
  showFullMetar := false
  atisLetter := "-"
  atisTexts := []
  showAtisTexts := false

/-- A fetch result whose observation timestamp equals the timestamp
already displayed by demoMetarState. -/
def demoStaleRes : FetchMetarResponse where
  obsTime := 5
  altimeter := ⟨0, 0⟩
  windString := "27015KT"
  rawOb := "KJFK stale"

/-- A monitor state holding one advisory text. -/
def demoAtisMetarState : MetarState :=
  { demoMetarState with atisTexts := ["INFO ALFA"] }

/-- Per-cycle randomness whose first draw is 0 and whose later draws
are 1/2; cycle 1 would see fresh randomness under re-randomization. -/
def drawsDemo : ℕ → ℚ := fun n => if n = 0 then 0 else 1 / 2

/-- The constant all-zero randomness source. -/
def drawsZero : ℕ → ℚ := fun _ => 0

/-- The rational 29.921 (a typical inHg altimeter value). -/
def qInHg : ℚ := ⟨29921, 1000, by decide, by decide⟩

/-- The rational 1013 (a typical hPa altimeter value). -/
def qHpa : ℚ := ⟨1013, 1, by decide, by decide⟩

/-- Altimeter store holding 29.921 inHg / 1013 hPa. -/
def demoAltim : Altim := ⟨qInHg, qHpa⟩

/-- The zero/unset altimeter sentinel. -/
def demoZeroAltim : Altim := ⟨0, 0⟩

/-- A MainUiStore in its initial configuration. -/
def demoUi : MainUiStore := ⟨true, true, true, PUnits.inHg⟩

/-- App state whose pending input is a 3-character string with a
leading space (raw length 3, trimmed length 2). -/
def demoTrimState : AppState := ⟨" AB", [], demoUi, 0⟩

/-- App state whose pending input is the 4-character id KJFK. -/
def demoAddState : AppState := ⟨"KJFK", [], demoUi, 0⟩

/-- App state holding three stations. -/
def demoThreeStations : AppState := ⟨"", ["KJFK", "KLAX", "KORD"], demoUi, 0⟩

/-- App state with an empty station list. -/
def demoEmptyApp : AppState := ⟨"", [], demoUi, 0⟩

/-- A profile carrying no saved window geometry. -/
def demoProfileNoGeom : Profile where
  name := "day shift"
  stations := ["KJFK", "KLAX"]
  showInput := false
  showTitlebar := true
  window := none
  units := PUnits.hPa
  hideAirportIfMissingAtis := false

/-- A saved window geometry. -/
def demoGeometry : WindowGeometry where
  state := WindowState.normal
  posX := 10
  posY := 20
  width := 300
  height := 200
  scaleFactor := 1

/-- The profile demoProfileNoGeom, but carrying saved geometry. -/
def demoProfileGeom : Profile := { demoProfileNoGeom with window := some demoGeometry }

/-! ### Theorems -/

/-- tsLE is reflexive. -/
theorem tsLE_refl (x : Option ℤ) : tsLE x x := by
  cases x with
  | none => trivial
  | some a => exact le_refl a

/-- tsLE is transitive. -/
theorem tsLE_trans {x y z : Option ℤ} (h1 : tsLE x y) (h2 : tsLE y z) : tsLE x z := by
  cases x with
  | none => trivial
  | some a =>
      cases y with
      | none => exact h1.elim
      | some b =>
          cases z with
          | none => exact h2.elim
          | some c => exact le_trans (α := ℤ) h1 h2

/-- One updateMetar call never moves the displayed timestamp backwards. -/
theorem tsLE_updateMetar_step (s : MetarState) (f : Option FetchMetarResponse) :
    tsLE s.currentTimestamp (updateMetar s f).currentTimestamp := by
  unfold updateMetar updateMetarRun
  by_cases hv : s.validId = false
  · simp only [hv, if_true]
    exact tsLE_refl _
  · simp only [hv, if_false]
    cases f with
    | none => exact tsLE_refl _
    | some res =>
        cases hct : s.currentTimestamp with
        | none => simp [tsLE]
        | some t =>
            by_cases hgt : res.obsTime > t
            · simp only [hgt, if_true]
              show tsLE (some t) (some res.obsTime)
              show t ≤ res.obsTime
              omega
            · simp only [hgt, if_false]
              show tsLE (some t) s.currentTimestamp
              rw [hct]
              exact tsLE_refl _

/-- Claim C1: for every sequence of METAR fetch results delivered to
one station monitor, the displayed observation timestamp is
monotonically non-decreasing: updateMetar applies a fetched result
(setting timestamp, altimeter, wind, raw text) only when its
observation timestamp is strictly newer than the current one (or no
observation has been accepted yet); a result with timestamp less than
or equal to the current one changes no display state. -/
theorem C1_updateMetar_timestamp_monotone :
    (∀ (s : MetarState) (res : FetchMetarResponse) (t : ℤ),
        s.currentTimestamp = some t → res.obsTime ≤ t →
        updateMetar s (some res) = s) ∧
    (∀ (s : MetarState) (f : Option FetchMetarResponse),
        tsLE s.currentTimestamp (updateMetar s f).currentTimestamp) ∧
    (∀ (s : MetarState) (l : List (Option FetchMetarResponse)),
        tsLE s.currentTimestamp ((l.foldl updateMetar s).currentTimestamp)) ∧
    (∀ (s : MetarState) (res : FetchMetarResponse),
        s.validId = true →
        (s.currentTimestamp = none ∨ ∃ t, s.currentTimestamp = some t ∧ t < res.obsTime) →
        updateMetar s (some res) =
          { s with
              currentTimestamp := some res.obsTime
              altimeter := res.altimeter
              wind := res.windString
              rawMetar := res.rawOb }) := by
  refine ⟨?_, tsLE_updateMetar_step, ?_, ?_⟩
  · intro s res t hct hle
    unfold updateMetar updateMetarRun
    by_cases hv : s.validId = false
    · simp [hv]
    · have hgt : ¬res.obsTime > t := by omega
      simp [hv, hct, hgt]
  · intro s l
    induction l generalizing s with
    | nil => exact tsLE_refl _
    | cons f l ih =>
        exact tsLE_trans (tsLE_updateMetar_step s f) (ih (updateMetar s f))
  · intro s res hv hnew
    unfold updateMetar updateMetarRun
    rcases hnew with hnone | ⟨t, hct, hlt⟩
    · simp [hv, hnone]
    · simp [hv, hct, hlt]

/-- Witness for C1: the stale-result conjunct at a concrete state and
a concrete result with equal timestamps. -/
theorem C1_witness :
    demoMetarState.currentTimestamp = some 5 ∧ demoStaleRes.obsTime ≤ 5 ∧
    updateMetar demoMetarState (some demoStaleRes) = demoMetarState :=
  ⟨rfl, by decide,
    C1_updateMetar_timestamp_monotone.1 demoMetarState demoStaleRes 5 rfl (by decide)⟩

/-- Claim C2: for every reachable per-station UI state, at most one of
showFullMetar and showAtisTexts is true: toggling full-report
visibility to true forces advisory-text visibility to false, and
toggling advisory-text visibility to true forces full-report
visibility to false, so the mutual-exclusion invariant is preserved by
every toggle operation (and holds initially). -/
theorem C2_panel_toggles_mutually_exclusive :
    (∀ s : MetarState, panelsMutuallyExclusive (toggleShowMetar s)) ∧
    (∀ s : MetarState, panelsMutuallyExclusive (toggleShowAtisTexts s)) ∧
    panelsMutuallyExclusive initialMetarState ∧
    (∀ s : MetarState, s.showFullMetar = false →
        (toggleShowMetar s).showFullMetar = true ∧
        (toggleShowMetar s).showAtisTexts = false) ∧
    (∀ s : MetarState, s.atisTexts.length ≠ 0 → s.showAtisTexts = false →
        (toggleShowAtisTexts s).showAtisTexts = true ∧
        (toggleShowAtisTexts s).showFullMetar = false) := by
  refine ⟨?_, ?_, by unfold panelsMutuallyExclusive; decide, ?_, ?_⟩
  · intro s
    unfold toggleShowMetar panelsMutuallyExclusive
    by_cases h : s.showFullMetar <;> simp [h]
  · intro s
    unfold toggleShowAtisTexts panelsMutuallyExclusive
    by_cases h0 : s.atisTexts.length = 0
    · simp [h0]
    · by_cases h1 : s.showAtisTexts <;> simp [h0, h1]
  · intro s h
    unfold toggleShowMetar
    simp [h]
  · intro s h0 h1
    unfold toggleShowAtisTexts
    simp [h0, h1]

/-- Witness for C2: toggling the full report on from a state where it
is hidden, and toggling the advisory texts on from a state holding one
advisory text. -/
theorem C2_witness :
    demoAtisMetarState.atisTexts.length ≠ 0 ∧ demoAtisMetarState.showAtisTexts = false ∧
    (toggleShowAtisTexts demoAtisMetarState).showAtisTexts = true ∧
    (toggleShowAtisTexts demoAtisMetarState).showFullMetar = false :=
  have h := C2_panel_toggles_mutually_exclusive.2.2.2.2 demoAtisMetarState
    (by decide) (by decide)
  ⟨by decide, by decide, h.1, h.2⟩

/-- Claim C7: for every station whose lookup fails, displayId is set to
the raw requestedId, validId remains false, no repeating timers are
ever armed for that instance, and updateMetar/updateAtis perform no
fetch side effects (they return immediately while validId is false);
the failure is logged (caught) and not surfaced as a blocking error —
onMountMetar returns normally with an inert monitor. -/
theorem C7_invalid_station_inert :
    ∀ (requestedId : String) (mf : Option FetchMetarResponse)
      (af : Option FetchAtisResponse) (r1 r2 : ℚ),
      (onMountMetar requestedId none mf af r1 r2).state.displayId = requestedId ∧
      (onMountMetar requestedId none mf af r1 r2).state.validId = false ∧
      (onMountMetar requestedId none mf af r1 r2).metarTimerHandle = none ∧
      (onMountMetar requestedId none mf af r1 r2).letterTimerHandle = none ∧
      (onMountMetar requestedId none mf af r1 r2).metarFetchCount = 0 ∧
      (onMountMetar requestedId none mf af r1 r2).atisFetchCount = 0 ∧
      (∀ f : Option FetchMetarResponse,
        updateMetarRun (onMountMetar requestedId none mf af r1 r2).state f =
          ((onMountMetar requestedId none mf af r1 r2).state, 0)) ∧
      (∀ f : Option FetchAtisResponse,
        updateAtisRun (onMountMetar requestedId none mf af r1 r2).state f =
          ((onMountMetar requestedId none mf af r1 r2).state, 0)) := by
  intro requestedId mf af r1 r2
  have hmount : onMountMetar requestedId none mf af r1 r2 =
      { state := { initialMetarState with displayId := requestedId }
        metarTimerHandle := none
        letterTimerHandle := none
        metarFetchCount := 0
        atisFetchCount := 0 } := by
    unfold onMountMetar fetchAndUpdateStation
    simp [initialMetarState]
  rw [hmount]
  refine ⟨rfl, rfl, rfl, rfl, rfl, rfl, ?_, ?_⟩
  · intro f
    unfold updateMetarRun
    simp [initialMetarState]
  · intro f
    unfold updateAtisRun
    simp [initialMetarState]

/-- fracDigits always produces exactly d characters. -/
theorem length_fracDigits (d : ℕ) : ∀ n : ℕ, (fracDigits d n).length = d := by
  induction d with
  | zero => intro n; rfl
  | succ d ih =>
      intro n
      simp [fracDigits, ih]

/-- A decimal digit character is never the decimal point. -/
theorem digitChar_ne_dot (k : ℕ) (h : k < 10) : Nat.digitChar k ≠ '.' := by
  interval_cases k <;> decide

/-- The characters produced by natDigitsAux are decimal digits, never
the decimal point. -/
theorem natDigitsAux_ne_dot (fuel : ℕ) :
    ∀ n : ℕ, ∀ c ∈ natDigitsAux fuel n, c ≠ '.' := by
  induction fuel with
  | zero => intro n c hc; simp [natDigitsAux] at hc
  | succ fuel ih =>
      intro n c hc
      by_cases hn : n = 0
      · simp [natDigitsAux, hn] at hc
      · simp only [natDigitsAux, hn, if_false, List.mem_append, List.mem_singleton] at hc
        rcases hc with hc | hc
        · exact ih (n / 10) c hc
        · rw [hc]
          exact digitChar_ne_dot _ (Nat.mod_lt _ (by norm_num))

/-- The decimal numeral of a natural number contains no decimal
point. -/
theorem natNumeral_ne_dot (n : ℕ) : ∀ c ∈ (natNumeral n).data, c ≠ '.' := by
  intro c hc
  unfold natNumeral at hc
  by_cases hn : n = 0
  · simp [hn] at hc
    rw [hc]
    decide
  · simp only [hn, if_false] at hc
    exact natDigitsAux_ne_dot _ n c hc

/-- For a positive number of decimals, toFixed splits into an integer
part, the decimal point, and exactly d fractional digit characters. -/
theorem toFixed_decomp (d : ℕ) (q : ℚ) (hd : d ≠ 0) :
    toFixed d q =
      (toFixedSign d q ++ natNumeral (toFixedScaled d q / 10 ^ d)) ++ "."
        ++ String.mk (fracDigits d (toFixedScaled d q % 10 ^ d)) := by
  unfold toFixed
  rw [if_neg hd]

/-- Claim C8: the rendered altimeter string is unit-dependent: with
units inHg a non-zero value is formatted to exactly 2 decimal places
(29.921 renders "29.92"); with units hPa a non-zero value is formatted
to 0 decimal places (1013 renders "1013"); the zero/unset sentinel
renders as the empty string in either unit. -/
theorem C8_altimeter_formatting :
    (∀ a : Altim, a.inHg = 0 → altimeterString PUnits.inHg a = "") ∧
    (∀ a : Altim, a.hpa = 0 → altimeterString PUnits.hPa a = "") ∧
    (∀ a : Altim, a.inHg ≠ 0 →
        altimeterString PUnits.inHg a = toFixed 2 a.inHg ∧
        ∃ intPart fracPart : String,
          toFixed 2 a.inHg = intPart ++ "." ++ fracPart ∧ fracPart.length = 2) ∧
    (∀ a : Altim, a.hpa ≠ 0 →
        altimeterString PUnits.hPa a = toFixed 0 a.hpa ∧
        ∀ c ∈ (toFixed 0 a.hpa).data, c ≠ '.') ∧
    altimeterString PUnits.inHg demoAltim = "29.92" ∧
    altimeterString PUnits.hPa demoAltim = "1013" := by
  refine ⟨?_, ?_, ?_, ?_, by decide, by decide⟩
  · intro a h
    unfold altimeterString
    rw [if_pos h]
  · intro a h
    unfold altimeterString
    rw [if_pos h]
  · intro a h
    refine ⟨by unfold altimeterString; rw [if_neg h], ?_⟩
    exact ⟨_, _, toFixed_decomp 2 a.inHg (by norm_num), by
      rw [String.length_mk]
      exact length_fracDigits 2 _⟩
  · intro a h
    refine ⟨by unfold altimeterString; rw [if_neg h], ?_⟩
    intro c hc
    unfold toFixed at hc
    rw [if_pos rfl, String.data_append] at hc
    rcases List.mem_append.mp hc with hc | hc
    · unfold toFixedSign at hc
      by_cases hs : a.hpa.num < 0 ∧ toFixedScaled 0 a.hpa ≠ 0
      · rw [if_pos hs] at hc
        simp at hc
        rw [hc]
        decide
      · rw [if_neg hs] at hc
        simp at hc
    · exact natNumeral_ne_dot _ c hc

/-- Witness for C8: the zero sentinel renders as the empty string. -/
theorem C8_witness :
    demoZeroAltim.inHg = 0 ∧ altimeterString PUnits.inHg demoZeroAltim = "" :=
  ⟨rfl, C8_altimeter_formatting.1 demoZeroAltim rfl⟩

/-- getRandomInt at integer endpoints: the ceil and floor are the
endpoints themselves and the trailing addend commutes out of the
floor. -/
theorem getRandomInt_intCast (a b : ℤ) (r : ℚ) :
    getRandomInt (a : ℚ) (b : ℚ) r = ⌊r * ((b : ℚ) - (a : ℚ))⌋ + a := by
  simp only [getRandomInt, Int.ceil_intCast, Int.floor_intCast]
  rw [Int.floor_add_int]

/-- The metar endpoints: getRandomInt 120 150 r = floor(30 r) + 120. -/
theorem getRandomInt_metar (r : ℚ) : getRandomInt 120 150 r = ⌊r * 30⌋ + 120 := by
  have h := getRandomInt_intCast 120 150 r
  norm_num at h
  exact h

/-- The advisory endpoints: getRandomInt 20 30 r = floor(10 r) + 20. -/
theorem getRandomInt_atis (r : ℚ) : getRandomInt 20 30 r = ⌊r * 10⌋ + 20 := by
  have h := getRandomInt_intCast 20 30 r
  norm_num at h
  exact h

/-- Range of getRandomInt at integer endpoints for a draw in [0, 1). -/
theorem getRandomInt_bounds (a b : ℤ) (r : ℚ) (hab : a < b) (h0 : 0 ≤ r) (h1 : r < 1) :
    a ≤ getRandomInt (a : ℚ) (b : ℚ) r ∧ getRandomInt (a : ℚ) (b : ℚ) r < b := by
  rw [getRandomInt_intCast]
  have hba : (0 : ℚ) < (b : ℚ) - (a : ℚ) := by
    rw [sub_pos]
    exact_mod_cast hab
  constructor
  · have hge : 0 ≤ ⌊r * ((b : ℚ) - (a : ℚ))⌋ :=
      Int.floor_nonneg.mpr (mul_nonneg h0 hba.le)
    omega
  · have hlt : r * ((b : ℚ) - (a : ℚ)) < (b : ℚ) - (a : ℚ) := by
      calc r * ((b : ℚ) - (a : ℚ)) < 1 * ((b : ℚ) - (a : ℚ)) :=
            mul_lt_mul_of_pos_right h1 hba
        _ = (b : ℚ) - (a : ℚ) := one_mul _
    have hfl : ⌊r * ((b : ℚ) - (a : ℚ))⌋ < b - a := by
      rw [Int.floor_lt]
      push_cast
      exact hlt
    omega

/-- Exact characterisation of the draw regions: the value k is
produced precisely on a half-open subinterval of [0, 1) of length
1 / (b - a), which is the uniformity of the integer draw. -/
theorem getRandomInt_eq_iff (a b k : ℤ) (r : ℚ) (hab : a < b) :
    getRandomInt (a : ℚ) (b : ℚ) r = k ↔
      ((k : ℚ) - (a : ℚ)) / ((b : ℚ) - (a : ℚ)) ≤ r ∧
        r < ((k : ℚ) - (a : ℚ) + 1) / ((b : ℚ) - (a : ℚ)) := by
  rw [getRandomInt_intCast]
  have hba : (0 : ℚ) < (b : ℚ) - (a : ℚ) := by
    rw [sub_pos]
    exact_mod_cast hab
  have hsplit : (⌊r * ((b : ℚ) - (a : ℚ))⌋ + a = k) ↔
      ⌊r * ((b : ℚ) - (a : ℚ))⌋ = k - a := by omega
  rw [hsplit, Int.floor_eq_iff, div_le_iff₀ hba, lt_div_iff₀ hba]
  push_cast
  constructor
  · intro h
    exact ⟨h.1, h.2⟩
  · intro h
    exact ⟨h.1, h.2⟩

/-- Counterexample for C6: the code draws the METAR interval once, at
mount; with fresh per-cycle randomness available (drawsDemo), the
interval the code uses before cycle 1 is the mount-time value 120,
not the re-randomized value 135 that the claimed per-cycle draw would
produce. -/
theorem C6_counterexample :
    codeMetarIntervalSeq drawsDemo 1 = 120 ∧
    specMetarIntervalSeq drawsDemo 1 = 135 ∧
    codeMetarIntervalSeq drawsDemo 1 ≠ specMetarIntervalSeq drawsDemo 1 := by
  have hc : codeMetarIntervalSeq drawsDemo 1 = 120 := by
    show getRandomInt 120 150 (drawsDemo 0) = 120
    rw [getRandomInt_metar]
    norm_num [drawsDemo]
  have hs : specMetarIntervalSeq drawsDemo 1 = 135 := by
    show getRandomInt 120 150 (drawsDemo 1) = 135
    rw [getRandomInt_metar]
    have hd : drawsDemo 1 = 1 / 2 := by norm_num [drawsDemo]
    rw [hd]
    have h15 : (1 / 2 : ℚ) * 30 = 15 := by norm_num
    rw [h15]
    norm_num
  refine ⟨hc, hs, ?_⟩
  rw [hc, hs]
  decide

/-- Claim C6 as amended: each monitor draws its METAR interval once at
mount, uniformly from [120s, 150s) — every cycle reuses that single
draw rather than re-randomizing — and likewise draws its advisory
interval once from [20s, 30s).  Uniformity of the single draw is
recorded by the exact draw-region characterisation: each value k is
hit on a half-open subinterval of draws of length 1/30 (METAR). -/
theorem C6_intervals_drawn_once_uniform :
    ∀ draws : ℕ → ℚ, 0 ≤ draws 0 → draws 0 < 1 →
      (∀ n m : ℕ, codeMetarIntervalSeq draws n = codeMetarIntervalSeq draws m) ∧
      (∀ n : ℕ, 120 ≤ codeMetarIntervalSeq draws n ∧ codeMetarIntervalSeq draws n < 150) ∧
      (∀ n m : ℕ, codeAtisIntervalSeq draws n = codeAtisIntervalSeq draws m) ∧
      (∀ n : ℕ, 20 ≤ codeAtisIntervalSeq draws n ∧ codeAtisIntervalSeq draws n < 30) ∧
      (∀ k : ℤ, codeMetarIntervalSeq draws 0 = k ↔
          ((k : ℚ) - 120) / 30 ≤ draws 0 ∧ draws 0 < ((k : ℚ) - 119) / 30) := by
  intro draws h0 h1
  have hm : ∀ n : ℕ, codeMetarIntervalSeq draws n = getRandomInt 120 150 (draws 0) :=
    fun _ => rfl
  have ha : ∀ n : ℕ, codeAtisIntervalSeq draws n = getRandomInt 20 30 (draws 0) :=
    fun _ => rfl
  have hmb := getRandomInt_bounds 120 150 (draws 0) (by omega) h0 h1
  have hab := getRandomInt_bounds 20 30 (draws 0) (by omega) h0 h1
  have hcast120 : ((120 : ℤ) : ℚ) = (120 : ℚ) := by norm_num
  have hcast150 : ((150 : ℤ) : ℚ) = (150 : ℚ) := by norm_num
  have hcast20 : ((20 : ℤ) : ℚ) = (20 : ℚ) := by norm_num
  have hcast30 : ((30 : ℤ) : ℚ) = (30 : ℚ) := by norm_num
  rw [hcast120, hcast150] at hmb
  rw [hcast20, hcast30] at hab
  refine ⟨fun n m => by rw [hm n, hm m], fun n => by rw [hm n]; exact hmb,
    fun n m => by rw [ha n, ha m], fun n => by rw [ha n]; exact hab, ?_⟩
  intro k
  have hiff := getRandomInt_eq_iff 120 150 k (draws 0) (by omega)
  rw [hcast120, hcast150] at hiff
  rw [hm 0, hiff]
  rw [show (150 : ℚ) - 120 = 30 by norm_num,
    show (k : ℚ) - 120 + 1 = (k : ℚ) - 119 by ring]

/-- Witness for C6: the all-zero randomness source lies in [0, 1) and
yields a mount-time METAR interval within [120, 150). -/
theorem C6_witness :
    (0 : ℚ) ≤ drawsZero 0 ∧ drawsZero 0 < 1 ∧
    120 ≤ codeMetarIntervalSeq drawsZero 0 ∧ codeMetarIntervalSeq drawsZero 0 < 150 :=
  ⟨le_refl (0 : ℚ), zero_lt_one,
    ((C6_intervals_drawn_once_uniform drawsZero (le_refl (0 : ℚ)) zero_lt_one).2.1 0).1,
    ((C6_intervals_drawn_once_uniform drawsZero (le_refl (0 : ℚ)) zero_lt_one).2.1 0).2⟩

/-- Counterexample for C3: the code tests the raw input length, never
a trimmed one.  The input " AB" has raw length 3 but trimmed length 2;
the claim (acceptance iff trimmed length is 3 or 4) demands rejection,
yet addStation appends it to the station list. -/
theorem C3_counterexample :
    ¬(3 ≤ (specTrim demoTrimState.inputId).length ∧
        (specTrim demoTrimState.inputId).length ≤ 4) ∧
    demoTrimState.ids = [] ∧
    (addStation demoTrimState).ids = [demoTrimState.inputId] := by
  refine ⟨by decide, by decide, by decide⟩

/-- Claim C3 as amended: addStation accepts an input iff its raw
(untrimmed) length is 3 or 4 characters; on acceptance the id is
appended at the end (length grows by exactly 1, the new id is the last
element, and the input field is cleared); on rejection the station
list and the input are unchanged. -/
theorem C3_addStation_raw_length :
    ∀ s : AppState,
      (3 ≤ s.inputId.length ∧ s.inputId.length ≤ 4 →
        (addStation s).ids = s.ids ++ [s.inputId] ∧
        (addStation s).ids.length = s.ids.length + 1 ∧
        (addStation s).ids.getLast? = some s.inputId ∧
        (addStation s).inputId = "") ∧
      (¬(3 ≤ s.inputId.length ∧ s.inputId.length ≤ 4) →
        (addStation s).ids = s.ids ∧ (addStation s).inputId = s.inputId) := by
  intro s
  constructor
  · intro h
    simp [addStation, applyFnAndResize, resetWindowHeight, h, List.getLast?_concat]
  · intro h
    simp [addStation, applyFnAndResize, resetWindowHeight, h]

/-- Witness for C3: the 4-character id KJFK is accepted and appended. -/
theorem C3_witness :
    (3 ≤ demoAddState.inputId.length ∧ demoAddState.inputId.length ≤ 4) ∧
    ((addStation demoAddState).ids = demoAddState.ids ++ [demoAddState.inputId] ∧
      (addStation demoAddState).ids.length = demoAddState.ids.length + 1 ∧
      (addStation demoAddState).ids.getLast? = some demoAddState.inputId ∧
      (addStation demoAddState).inputId = "") :=
  ⟨by decide, (C3_addStation_raw_length demoAddState).1 (by decide)⟩

/-- Claim C4: for every loaded profile, if the profile carries no
saved window geometry, loadProfile performs exactly one resize call
after the station list and UI flags are applied; if the profile does
carry saved window geometry, loadProfile applies the station list and
flags but issues zero automatic resize calls. -/
theorem C4_loadProfile_resize :
    ∀ (s : AppState) (p : Profile),
      (p.window = none →
        (loadProfile s p).resizeCalls = s.resizeCalls + 1 ∧
        (loadProfile s p).ids = p.stations ∧
        (loadProfile s p).mainUi.showInput = p.showInput ∧
        (loadProfile s p).mainUi.showTitlebar = p.showTitlebar ∧
        (loadProfile s p).mainUi.units = p.units) ∧
      (∀ w : WindowGeometry, p.window = some w →
        (loadProfile s p).resizeCalls = s.resizeCalls ∧
        (loadProfile s p).ids = p.stations ∧
        (loadProfile s p).mainUi.showInput = p.showInput ∧
        (loadProfile s p).mainUi.showTitlebar = p.showTitlebar ∧
        (loadProfile s p).mainUi.units = p.units) := by
  intro s p
  constructor
  · intro h
    simp [loadProfile, h, loadProfileApply, applyFnAndResize, resetWindowHeight]
  · intro w h
    simp [loadProfile, h, loadProfileApply]

/-- Witness for C4: loading a geometry-free profile into the empty app
state issues exactly one resize and applies the profile fields. -/
theorem C4_witness :
    demoProfileNoGeom.window = none ∧
    ((loadProfile demoEmptyApp demoProfileNoGeom).resizeCalls =
        demoEmptyApp.resizeCalls + 1 ∧
      (loadProfile demoEmptyApp demoProfileNoGeom).ids = demoProfileNoGeom.stations ∧
      (loadProfile demoEmptyApp demoProfileNoGeom).mainUi.showInput =
        demoProfileNoGeom.showInput ∧
      (loadProfile demoEmptyApp demoProfileNoGeom).mainUi.showTitlebar =
        demoProfileNoGeom.showTitlebar ∧
      (loadProfile demoEmptyApp demoProfileNoGeom).mainUi.units =
        demoProfileNoGeom.units) :=
  ⟨rfl, (C4_loadProfile_resize demoEmptyApp demoProfileNoGeom).1 rfl⟩

/-- Index access distributes over drop. -/
theorem getElem?_drop_eq {α : Type} (l : List α) (n m : ℕ) :
    (l.drop n)[m]? = l[n + m]? := by
  induction l generalizing n with
  | nil => simp
  | cons a l ih =>
      cases n with
      | zero => simp
      | succ n =>
          rw [List.drop_succ_cons, ih n, Nat.succ_add, List.getElem?_cons_succ]

/-- The behavior of removeIndex on an in-range index: length drops by
one, indices below i are untouched, indices at or above i shift down
by one (relative order of survivors is preserved). -/
theorem removeIndex_spec {α : Type} (l : List α) (i : ℕ) (hi : i < l.length) :
    (removeIndex l i).length = l.length - 1 ∧
    (∀ j, j < i → (removeIndex l i)[j]? = l[j]?) ∧
    (∀ j, i ≤ j → (removeIndex l i)[j]? = l[j + 1]?) := by
  unfold removeIndex
  have hlen_take : (l.take i).length = i := by
    rw [List.length_take]
    omega
  refine ⟨?_, ?_, ?_⟩
  · rw [List.length_append, hlen_take, List.length_drop]
    omega
  · intro j hj
    rw [List.getElem?_append, hlen_take, if_pos hj]
    exact List.getElem?_take_of_lt hj
  · intro j hij
    rw [List.getElem?_append, hlen_take, if_neg (by omega), getElem?_drop_eq]
    congr 1
    omega

/-- Claim C9: for every station list and every in-range index i,
removeStation i removes exactly the element at position i and
preserves the relative order of all surviving elements; removing
index 1 from [KJFK, KLAX, KORD] yields [KJFK, KORD]. -/
theorem C9_removeStation_preserves_order :
    (∀ (s : AppState) (i : ℕ), i < s.ids.length →
      (removeStation s i).ids.length = s.ids.length - 1 ∧
      (∀ j, j < i → (removeStation s i).ids[j]? = s.ids[j]?) ∧
      (∀ j, i ≤ j → (removeStation s i).ids[j]? = s.ids[j + 1]?)) ∧
    (removeStation demoThreeStations 1).ids = ["KJFK", "KORD"] := by
  constructor
  · intro s i hi
    have hids : (removeStation s i).ids = removeIndex s.ids i := by
      simp [removeStation, applyFnAndResize, resetWindowHeight]
    rw [hids]
    exact removeIndex_spec s.ids i hi
  · decide

/-- Witness for C9: the order-preservation facts at the three-station
demo list with index 1. -/
theorem C9_witness :
    1 < demoThreeStations.ids.length ∧
    ((removeStation demoThreeStations 1).ids.length =
        demoThreeStations.ids.length - 1 ∧
      (∀ j, j < 1 →
        (removeStation demoThreeStations 1).ids[j]? = demoThreeStations.ids[j]?) ∧
      (∀ j, 1 ≤ j →
        (removeStation demoThreeStations 1).ids[j]? =
          demoThreeStations.ids[j + 1]?)) :=
  ⟨by decide, C9_removeStation_preserves_order.1 demoThreeStations 1 (by decide)⟩

/-- Claim C10 (implicit frame effect): the CtrlOrCmd+D handler that
toggles input-panel visibility is gated on a non-empty station list —
whenever the station list is empty, invoking the toggle leaves
showInput and every other UI flag unchanged (only the resize counter
advances), so the input panel can never be hidden by this handler
while no stations exist; with a non-empty list it toggles showInput
and nothing else. -/
theorem C10_toggleInput_gated_on_nonempty :
    ∀ s : AppState,
      (s.ids = [] → s.mainUi.showScroll = true →
        toggleInputShortcut s = { s with resizeCalls := s.resizeCalls + 1 }) ∧
      (s.ids ≠ [] →
        (toggleInputShortcut s).mainUi.showInput = !s.mainUi.showInput ∧
        (toggleInputShortcut s).mainUi.showTitlebar = s.mainUi.showTitlebar ∧
        (toggleInputShortcut s).mainUi.units = s.mainUi.units ∧
        (toggleInputShortcut s).ids = s.ids ∧
        (toggleInputShortcut s).inputId = s.inputId) := by
  intro s
  obtain ⟨inp, ids, ⟨sc, si, st, u⟩, rc⟩ := s
  constructor
  · intro hids hsc
    simp only at hids hsc
    subst hids
    subst hsc
    rfl
  · intro hids
    simp only at hids
    have hpos : ids.length > 0 := List.length_pos.mpr hids
    simp [toggleInputShortcut, applyFnAndResize, resetWindowHeight, hpos]

/-- Witness for C10: on the empty app state the handler changes
nothing but the resize counter. -/
theorem C10_witness :
    demoEmptyApp.ids = [] ∧ demoEmptyApp.mainUi.showScroll = true ∧
    toggleInputShortcut demoEmptyApp =
      { demoEmptyApp with resizeCalls := demoEmptyApp.resizeCalls + 1 } :=
  ⟨rfl, rfl, (C10_toggleInput_gated_on_nonempty demoEmptyApp).1 rfl rfl⟩

/-- In a synchronous apply-and-resize trace the measurement suffix is
reached only after all mutation writes were dropped. -/
theorem syncTrace_dropWhile (ws : List ℕ) :
    List.dropWhile (fun e => !(e == Ev.measureHeight))
        (ws.map Ev.mutWrite
          ++ [Ev.measureHeight, Ev.resizeWindow, Ev.scrollSet true]) =
      [Ev.measureHeight, Ev.resizeWindow, Ev.scrollSet true] := by
  induction ws with
  | nil => rfl
  | cons w ws ih =>
      have hbeq : (Ev.mutWrite w == Ev.measureHeight) = false := rfl
      rw [List.map_cons, List.cons_append, List.dropWhile_cons]
      simp only [hbeq, Bool.not_false, if_pos]
      exact ih

/-- Claim C5 at its failing input: applyFnAndResize never awaits the
mutation, so for the async mutation updateAtis passes (which awaits
the advisory fetch before writing), the measurement and resize occur
before the mutation writes whenever the awaited call settles after the
quick window calls — the strict ordering the claim demands fails.  For
every synchronous mutation the ordering does hold. -/
theorem C5_applyFnAndResize_async_bug :
    applyFnAndResizeTrace atisMutation true =
      [Ev.scrollSet false, Ev.measureHeight, Ev.resizeWindow, Ev.scrollSet true,
        Ev.mutWrite 0, Ev.mutWrite 1] ∧
    mutationBeforeMeasure (applyFnAndResizeTrace atisMutation true) = false ∧
    (∀ (ws : List ℕ) (b : Bool),
      mutationBeforeMeasure (applyFnAndResizeTrace (Mutation.sync ws) b) = true) := by
  refine ⟨by decide, by decide, ?_⟩
  intro ws b
  show (!((List.dropWhile (fun e => !(e == Ev.measureHeight))
      ([Ev.scrollSet false] ++ ws.map Ev.mutWrite
        ++ [Ev.measureHeight, Ev.resizeWindow, Ev.scrollSet true])).any
          Ev.isMutWrite)) = true
  have hbeq : (Ev.scrollSet false == Ev.measureHeight) = false := rfl
  rw [List.append_assoc, List.singleton_append, List.dropWhile_cons]
  simp only [hbeq, Bool.not_false, if_pos]
  rw [syncTrace_dropWhile]
  rfl

end MiniMetars
